import Mathlib

/-!
Verification of the PN532 reader adapter (`src/native/adapters/hardware/Pn532Adapter.cc`)
and its node binding (`src/native/bindings/node/NfcCppBinding.cc`).

The external collaborators (serial transport, PN532 driver, card session manager,
DESFire card handle) are modelled as an oracle structure `CardOps σ` over an abstract
card/driver state `σ`: every driver round-trip is a state-passing function returning
an `Except`-style result, and every adapter operation additionally records the exact
sequence of driver calls it issued as a trace of `Ev` events.  Machine bytes are
modelled as `Nat` (all byte values handled by the adapter are produced from `uint8_t`
storage, hence `< 256`).
-/

/-- error::CardManagerError (external etl error category used by the adapter). -/
inductive CmError where
  | NoCardPresent
  | UnsupportedCardType
  | OtherCm
deriving DecidableEq

/-- error::HardwareError (transport-layer error category). -/
inductive HwError where
  | Timeout
  | OtherHw
deriving DecidableEq

/-- error::Pn532Error (PN532 protocol-layer error category). -/
inductive PnError where
  | Timeout
  | OtherPn
deriving DecidableEq

/-- An etl `error::Error`: one of the error categories, carrying the text that
`err.toString()` would render. -/
inductive EtlError where
  | cardManager : CmError → String → EtlError
  | hardware : HwError → String → EtlError
  | pn532 : PnError → String → EtlError
  | other : String → EtlError
deriving DecidableEq

/-- The diagnostic text carried by the error, as rendered by toString. -/
def EtlError.toString : EtlError → String
  | .cardManager _ s => s
  | .hardware _ s => s
  | .pn532 _ s => s
  | .other s => s

/-- core::ports::NfcError — `{code, message}`. -/
structure NfcError where
  code : String
  message : String
deriving DecidableEq

/-- core::ports::Result T = std::variant of T and NfcError. -/
abbrev NfcResult (α : Type) := Except NfcError α

/-- Pn532Adapter.cc `errFromEtl` (lines 30–43): the anonymous-namespace translation
used by all password-vault card operations.  Note that only
`HardwareError::Timeout` is mapped to IO_TIMEOUT; a `Pn532Error::Timeout` falls
through to the HARDWARE_ERROR catch-all. -/
def errFromEtl : EtlError → NfcError
  | .cardManager CmError.NoCardPresent _ => ⟨"NO_CARD", "No card detected"⟩
  | .cardManager CmError.UnsupportedCardType _ => ⟨"NOT_DESFIRE", "Card is not DESFire-compatible"⟩
  | .cardManager CmError.OtherCm s => ⟨"HARDWARE_ERROR", s⟩
  | .hardware HwError.Timeout s => ⟨"IO_TIMEOUT", s⟩
  | .hardware HwError.OtherHw s => ⟨"HARDWARE_ERROR", s⟩
  | .pn532 _ s => ⟨"HARDWARE_ERROR", s⟩
  | .other s => ⟨"HARDWARE_ERROR", s⟩

/-- CardType as seen by the adapter (only the DESFire check matters). -/
inductive CardType where
  | MifareDesfire
  | OtherCard
deriving DecidableEq

/-- nfc::CardInfo — detection result: card type and raw UID bytes. -/
structure CardInfo where
  type : CardType
  uid : List Nat
deriving DecidableEq

/-- DesfireAuthMode (ISO or AES) as used by the provisioning sequence. -/
inductive DesfireAuthMode where
  | ISO
  | AES
deriving DecidableEq

/-- DesfireKeyType — only AES is used by the adapter. -/
inductive DesfireKeyType where
  | AES
deriving DecidableEq

/-- nfc::ChangeKeyCommandOptions — fields set by Pn532Adapter::initCard. -/
structure ChangeKeyOpts where
  keyNo : Nat
  authMode : DesfireAuthMode
  newKeyType : DesfireKeyType
  oldKeyType : Option DesfireKeyType
  newKey : List Nat
  newKeyVersion : Nat
  oldKey : Option (List Nat)
deriving DecidableEq

/-- pn532::TestType — the five self-test kinds. -/
inductive TestType where
  | RomChecksum
  | RamIntegrity
  | CommunicationLine
  | EchoBack
  | AntennaContinuity
deriving DecidableEq

/-- core::ports::TestOutcome. -/
inductive TestOutcome where
  | Success
  | Failed
  | Skipped
deriving DecidableEq

/-- core::ports::SelfTestResult — `{name, outcome, detail}`. -/
structure SelfTestResult where
  name : String
  outcome : TestOutcome
  detail : String
deriving DecidableEq

/-- core::ports::SelfTestReport — contractually exactly 5 results in canonical order. -/
structure SelfTestReport where
  results : List SelfTestResult
deriving DecidableEq

/-- SelfTestReport::allPassed (INfcReader.h lines 35–40): false as soon as one
outcome differs from Success. -/
def SelfTestReport.allPassed (r : SelfTestReport) : Bool :=
  r.results.all (fun x => x.outcome = TestOutcome.Success)

/-- core::ports::CardVersionInfo. -/
structure CardVersionInfo where
  hwVersion : String
  swVersion : String
  uidHex : String
  storage : String
  rawVersionHex : String
deriving DecidableEq

/-- core::ports::CardProbeResult. -/
structure CardProbeResult where
  uid : List Nat
  isInitialised : Bool
deriving DecidableEq

/-- core::ports::CardInitOptions — byte arrays modelled as lists (aid has 3 bytes,
the keys and the secret 16 bytes each, enforced by the C++ array types). -/
structure CardInitOptions where
  aid : List Nat
  appMasterKey : List Nat
  readKey : List Nat
  cardSecret : List Nat
deriving DecidableEq

/-- pn532 firmware version info `{ic, ver, rev, support}`. -/
structure FwInfo where
  ic : Nat
  ver : Nat
  rev : Nat
  support : Nat
deriving DecidableEq

/-- The JS-side object produced by ProbeCardWorker::OnOK. -/
structure JsProbe where
  uid : Option String
  isInitialised : Bool
deriving DecidableEq

-- ---------------------------------------------------------------------------
-- String rendering helpers (ostringstream formatting)
-- ---------------------------------------------------------------------------

/-- One uppercase hex digit (std::hex with std::uppercase). -/
def hexDigitCh (n : Nat) : String :=
  match n with
  | 0 => "0" | 1 => "1" | 2 => "2" | 3 => "3" | 4 => "4"
  | 5 => "5" | 6 => "6" | 7 => "7" | 8 => "8" | 9 => "9"
  | 10 => "A" | 11 => "B" | 12 => "C" | 13 => "D" | 14 => "E" | _ => "F"

/-- Two-digit zero-filled uppercase hex rendering of a byte value. -/
def hexByte (n : Nat) : String :=
  hexDigitCh (n / 16 % 16) ++ hexDigitCh (n % 16)

/-- Render a byte list as two-digit uppercase hex, separated by `sep`
(the `if (i > 0) ss << sep` loop pattern). -/
def hexJoin (sep : String) (l : List Nat) : String :=
  String.intercalate sep (l.map hexByte)

/-- Unpadded uppercase hex rendering of a Nat (fuel-based digit recursion). -/
def hexNatAux : Nat → Nat → String
  | 0, _ => ""
  | fuel + 1, n => if n = 0 then "" else hexNatAux fuel (n / 16) ++ hexDigitCh (n % 16)

/-- Uppercase hex rendering of n with no width specifier. -/
def hexNat (n : Nat) : String :=
  if n = 0 then "0" else hexNatAux (n + 1) n

/-- getFirmwareVersion's output formatting (Pn532Adapter.cc lines 139–146). -/
def fwFormat (info : FwInfo) : String :=
  "IC=0x" ++ hexByte info.ic ++ "  Ver=" ++ toString info.ver ++ "." ++ toString info.rev
    ++ "  Support=0x" ++ hexNat info.support

/-- The storage size computation of getCardVersion (Pn532Adapter.cc line 265):
`1u << (storageCode >> 1)` on a uint32_t operand.  The shift is defined only
for shift counts below 32, i.e. storage codes below 0x40; there the result
2^(c >> 1) is at most 2^31, fits the 32-bit operand, and no wrap occurs.  For
larger codes the C++ expression is undefined behaviour, modelled as none. -/
def storageSizeBytes (c : Nat) : Option Nat :=
  if c >>> 1 < 32 then some (1 <<< (c >>> 1)) else none

/-- Storage rendering from getCardVersion (Pn532Adapter.cc lines 263–274), for a
storage code byte `c > 0`: a leading tilde when bit 0 of the code is set, then
the decoded size, in KB when at least 1024 bytes.  Where the size computation
is undefined (codes at or above 0x40) the source has no defined rendering; the
model returns the empty string there and no theorem relies on that branch. -/
def storageString (c : Nat) : String :=
  match storageSizeBytes c with
  | some sizeBytes =>
      (if c &&& 1 = 1 then "~" else "")
        ++ (if 1024 ≤ sizeBytes then toString (sizeBytes / 1024) ++ " KB"
            else toString sizeBytes ++ " B")
  | none => ""

-- ---------------------------------------------------------------------------
-- Driver-call traces
-- ---------------------------------------------------------------------------

/-- One observable call issued by the adapter to its collaborators.
`sessionCreate` records whether the session manager reported success. -/
inductive Ev where
  | detect
  | sessionCreate (ok : Bool)
  | castHandle
  | versionQuery
  | selectApp (aid : List Nat)
  | auth (keyNo : Nat) (key : List Nat) (mode : DesfireAuthMode)
  | setConfig (cfg : Nat) (mode : DesfireAuthMode)
  | createApp (aid : List Nat) (settings : Nat) (numKeys : Nat) (kt : DesfireKeyType)
  | createFile (fileNo comm r w rw car size : Nat)
  | changeKey (opts : ChangeKeyOpts)
  | writeData (fileNo offset : Nat) (payload : List Nat)
  | commit
  | readData (fileNo offset len : Nat)
  | getAids
  | freeMem
  | formatPicc
  | clearSession
  | fwQuery
  | selfTest (t : TestType)
  | progress (r : SelfTestResult)
deriving DecidableEq

/-- Every session that the session manager actually opened is followed, later in
the trace, by a clearSession call. -/
def sessionSafe : List Ev → Prop
  | [] => True
  | Ev.sessionCreate true :: rest => Ev.clearSession ∈ rest ∧ sessionSafe rest
  | _ :: rest => sessionSafe rest

-- ---------------------------------------------------------------------------
-- Adapter connection state and lifecycle
-- ---------------------------------------------------------------------------

/-- The nullable handles owned by Pn532Adapter: `_serial` (with its port),
`_pn532`, `_apduAdapter`, `_cardManager`. -/
structure AdapterSt where
  serial : Option String
  pn532 : Bool
  apduAdapter : Bool
  cardManager : Bool
deriving DecidableEq

/-- Environment facts consumed by connect: whether `createPlatformSerialBus`
returns a backend, and whether `serial->init()` succeeds. -/
structure ConnectEnv where
  platformHasSerial : Bool
  serialInitOk : Bool
deriving DecidableEq

namespace Pn532Adapter

/-- Pn532Adapter::disconnectNoLock (lines 54–61): no-op when `_serial` is null,
otherwise resets session manager, apdu adapter, driver, then the serial handle. -/
def disconnectNoLock (st : AdapterSt) : AdapterSt :=
  if st.serial.isNone then st
  else { serial := none, pn532 := false, apduAdapter := false, cardManager := false }

/-- Pn532Adapter::connect (lines 63–100). -/
def connect (env : ConnectEnv) (st : AdapterSt) (port : String) :
    NfcResult String × AdapterSt :=
  if st.serial.isSome then
    (.error ⟨"HARDWARE_ERROR", "Already connected to a port."⟩, st)
  else if env.platformHasSerial = false then
    (.error ⟨"NOT_SUPPORTED", "Serial backend is not available on this platform yet."⟩, st)
  else if env.serialInitOk = false then
    (.error ⟨"HARDWARE_ERROR", "Failed to initialize serial port: " ++ port⟩, st)
  else
    (.ok ("Successfully connected to PN532 on " ++ port),
     { serial := some port, pn532 := true, apduAdapter := true, cardManager := true })

/-- Pn532Adapter::disconnect (lines 102–110): always tears down and returns true. -/
def disconnect (st : AdapterSt) : NfcResult Bool × AdapterSt :=
  (.ok true, disconnectNoLock st)

end Pn532Adapter

-- ---------------------------------------------------------------------------
-- The driver/session/card oracle
-- ---------------------------------------------------------------------------

/-- Result of one external driver/session/card round-trip. -/
abbrev EtlResult (α : Type) := Except EtlError α

/-- External collaborators of the adapter (session manager and DESFire card
handle), as state-passing call interpretations over an abstract state `σ`.
`castDesfire` models whether `session->getCardAs<nfc::DesfireCard>()` returns a
non-null handle; `clearSession` models `_cardManager->clearSession()`. -/
structure CardOps (σ : Type) where
  detectCard : σ → EtlResult CardInfo × σ
  createSession : σ → EtlResult Unit × σ
  castDesfire : σ → Bool
  selectApplication : List Nat → σ → EtlResult Unit × σ
  authenticate : Nat → List Nat → DesfireAuthMode → σ → EtlResult Unit × σ
  setConfigurationPicc : Nat → DesfireAuthMode → σ → EtlResult Unit × σ
  createApplication : List Nat → Nat → Nat → DesfireKeyType → σ → EtlResult Unit × σ
  createBackupDataFile : Nat → Nat → Nat → Nat → Nat → Nat → Nat → σ → EtlResult Unit × σ
  changeKeyCmd : ChangeKeyOpts → σ → EtlResult Unit × σ
  writeData : Nat → Nat → List Nat → σ → EtlResult Unit × σ
  commitTransaction : σ → EtlResult Unit × σ
  readData : Nat → Nat → Nat → σ → EtlResult (List Nat) × σ
  getApplicationIds : σ → EtlResult (List (List Nat)) × σ
  freeMemory : σ → EtlResult Nat × σ
  formatPicc : σ → EtlResult Unit × σ
  clearSession : σ → σ
  getFirmwareVersion : σ → EtlResult FwInfo × σ
  selfTest : TestType → σ → EtlResult Unit × σ
  getVersionData : σ → EtlResult (List Nat) × σ

/-- The all-zero 16-byte default key. -/
def zeros16 : List Nat := List.replicate 16 0

/-- The PICC root application AID {0x00, 0x00, 0x00}. -/
def piccAid : List Nat := [0, 0, 0]

/-- The vault application AID {0x50, 0x57, 0x00}. -/
def vaultAid : List Nat := [80, 87, 0]

/-- The NOT_CONNECTED error produced by every operation's connection guard. -/
def notConnectedNfc : NfcError := ⟨"NOT_CONNECTED", "Not connected to PN532"⟩

/-- Timeout predicate used by getFirmwareVersion (lines 129–131): either a
transport-layer or a PN532 protocol-layer timeout. -/
def fwIsTimeout : EtlError → Bool
  | .hardware HwError.Timeout _ => true
  | .pn532 PnError.Timeout _ => true
  | _ => false

/-- Timeout predicate used by getCardVersion (lines 237–239): only the
transport-layer timeout is recognised. -/
def isHwTimeout : EtlError → Bool
  | .hardware HwError.Timeout _ => true
  | _ => false

namespace Pn532Adapter

variable {σ : Type}

/-- Pn532Adapter::getFirmwareVersion (lines 120–147). -/
def getFirmwareVersion (o : CardOps σ) (st : AdapterSt) (s : σ) :
    NfcResult String × σ × List Ev :=
  if st.pn532 = false then (.error notConnectedNfc, s, []) else
  match o.getFirmwareVersion s with
  | (.error e, s1) =>
      (.error ⟨if fwIsTimeout e then "IO_TIMEOUT" else "HARDWARE_ERROR", e.toString⟩,
       s1, [Ev.fwQuery])
  | (.ok info, s1) => (.ok (fwFormat info), s1, [Ev.fwQuery])

/-- The report row recorded for one self-test (lines 179–187): Success with an
empty detail on a passing test, Failed with the error text otherwise. -/
def row (name : String) : EtlResult Unit → SelfTestResult
  | .ok _ => ⟨name, TestOutcome.Success, ""⟩
  | .error e => ⟨name, TestOutcome.Failed, e.toString⟩

/-- One iteration of the runSelfTests loop (lines 165–189): run the test, record
its row, then invoke the progress callback (when one was supplied) with that
row before the next test runs. -/
def runOneTest (o : CardOps σ) (name : String) (t : TestType) (hasCb : Bool) (s : σ) :
    SelfTestResult × σ × List Ev :=
  let p := o.selfTest t s
  (row name p.1, p.2,
   Ev.selfTest t :: (if hasCb then [Ev.progress (row name p.1)] else []))

/-- Pn532Adapter::runSelfTests (lines 149–191) with the 5-iteration loop over the
canonical TESTS table unrolled. -/
def runSelfTests (o : CardOps σ) (st : AdapterSt) (hasCb : Bool) (s : σ) :
    NfcResult SelfTestReport × σ × List Ev :=
  if st.pn532 = false then (.error notConnectedNfc, s, []) else
  let p0 := runOneTest o "ROM Check" TestType.RomChecksum hasCb s
  let p1 := runOneTest o "RAM Check" TestType.RamIntegrity hasCb p0.2.1
  let p2 := runOneTest o "Communication" TestType.CommunicationLine hasCb p1.2.1
  let p3 := runOneTest o "Echo Test" TestType.EchoBack hasCb p2.2.1
  let p4 := runOneTest o "Antenna" TestType.AntennaContinuity hasCb p3.2.1
  (.ok ⟨[p0.1, p1.1, p2.1, p3.1, p4.1]⟩, p4.2.1,
   p0.2.2 ++ p1.2.2 ++ p2.2.2 ++ p3.2.2 ++ p4.2.2)

/-- The inline detection-error mapping of getCardVersion (lines 200–212). -/
def versionDetectErr : EtlError → NfcError
  | .cardManager CmError.NoCardPresent _ => ⟨"NO_CARD", "No card detected"⟩
  | .cardManager CmError.UnsupportedCardType _ =>
      ⟨"NOT_DESFIRE", "Card detected but not DESFire-compatible"⟩
  | e => ⟨"HARDWARE_ERROR", e.toString⟩

/-- The CardVersionInfo fields built by getCardVersion (lines 246–297): all
fields default to the empty string and are set only under the guards of the
source. -/
def buildVersionInfo (uid : List Nat) (bytes : List Nat) : CardVersionInfo :=
  { hwVersion :=
      if 14 ≤ bytes.length then toString (bytes.getD 3 0) ++ "." ++ toString (bytes.getD 4 0)
      else ""
    swVersion :=
      if 14 ≤ bytes.length then toString (bytes.getD 10 0) ++ "." ++ toString (bytes.getD 11 0)
      else ""
    storage :=
      if 14 ≤ bytes.length ∧ 0 < bytes.getD 5 0 then storageString (bytes.getD 5 0) else ""
    uidHex := if uid = [] then "" else hexJoin ":" uid
    rawVersionHex := if bytes = [] then "" else hexJoin " " bytes }

/-- Pn532Adapter::getCardVersion (lines 193–301). -/
def getCardVersion (o : CardOps σ) (st : AdapterSt) (s : σ) :
    NfcResult CardVersionInfo × σ × List Ev :=
  if st.pn532 = false then (.error notConnectedNfc, s, []) else
  match o.detectCard s with
  | (.error e, s1) => (.error (versionDetectErr e), s1, [Ev.detect])
  | (.ok info, s1) =>
    if info.type ≠ CardType.MifareDesfire then
      (.error ⟨"NOT_DESFIRE", "Card detected but not DESFire-compatible"⟩, s1, [Ev.detect])
    else
      match o.createSession s1 with
      | (.error e, s2) =>
          (.error ⟨"HARDWARE_ERROR", e.toString⟩, s2, [Ev.detect, Ev.sessionCreate false])
      | (.ok _, s2) =>
        if o.castDesfire s2 = false then
          (.error ⟨"NOT_DESFIRE", "Could not obtain DESFire card from session"⟩,
           o.clearSession s2,
           [Ev.detect, Ev.sessionCreate true, Ev.castHandle, Ev.clearSession])
        else
          match o.getVersionData s2 with
          | (.error e, s3) =>
              (.error ⟨if isHwTimeout e then "IO_TIMEOUT" else "HARDWARE_ERROR", e.toString⟩,
               o.clearSession s3,
               [Ev.detect, Ev.sessionCreate true, Ev.castHandle, Ev.versionQuery,
                Ev.clearSession])
          | (.ok bytes, s3) =>
              (.ok (buildVersionInfo info.uid bytes), o.clearSession s3,
               [Ev.detect, Ev.sessionCreate true, Ev.castHandle, Ev.versionQuery,
                Ev.clearSession])

/-- Pn532Adapter::peekCardUid (lines 307–318): one detection, no session, but it
still calls clearSession after a successful detect. -/
def peekCardUid (o : CardOps σ) (st : AdapterSt) (s : σ) :
    NfcResult (List Nat) × σ × List Ev :=
  if st.pn532 = false then (.error notConnectedNfc, s, []) else
  match o.detectCard s with
  | (.error e, s1) => (.error (errFromEtl e), s1, [Ev.detect])
  | (.ok info, s1) => (.ok info.uid, o.clearSession s1, [Ev.detect, Ev.clearSession])

/-- Pn532Adapter::isCardInitialised (lines 320–352). -/
def isCardInitialised (o : CardOps σ) (st : AdapterSt) (s : σ) :
    NfcResult Bool × σ × List Ev :=
  if st.pn532 = false then (.error notConnectedNfc, s, []) else
  match o.detectCard s with
  | (.error e, s1) => (.error (errFromEtl e), s1, [Ev.detect])
  | (.ok info, s1) =>
    if info.type ≠ CardType.MifareDesfire then
      (.error ⟨"NOT_DESFIRE", "Card is not DESFire-compatible"⟩, s1, [Ev.detect])
    else
      match o.createSession s1 with
      | (.error e, s2) => (.error (errFromEtl e), s2, [Ev.detect, Ev.sessionCreate false])
      | (.ok _, s2) =>
        if o.castDesfire s2 = false then
          (.error ⟨"NOT_DESFIRE", "Could not obtain DESFire card from session"⟩,
           o.clearSession s2,
           [Ev.detect, Ev.sessionCreate true, Ev.castHandle, Ev.clearSession])
        else
          match o.selectApplication piccAid s2 with
          | (.error e, s3) =>
              (.error (errFromEtl e), o.clearSession s3,
               [Ev.detect, Ev.sessionCreate true, Ev.castHandle, Ev.selectApp piccAid,
                Ev.clearSession])
          | (.ok _, s3) =>
            match o.getApplicationIds s3 with
            | (.error e, s4) =>
                (.error (errFromEtl e), o.clearSession s4,
                 [Ev.detect, Ev.sessionCreate true, Ev.castHandle, Ev.selectApp piccAid,
                  Ev.getAids, Ev.clearSession])
            | (.ok aids, s4) =>
                (.ok (aids.contains vaultAid), o.clearSession s4,
                 [Ev.detect, Ev.sessionCreate true, Ev.castHandle, Ev.selectApp piccAid,
                  Ev.getAids, Ev.clearSession])

/-- Pn532Adapter::probeCard (lines 354–401): any failure after a successful
detection degrades to `{uid, isInitialised := false}` instead of an error. -/
def probeCard (o : CardOps σ) (st : AdapterSt) (s : σ) :
    NfcResult CardProbeResult × σ × List Ev :=
  if st.pn532 = false then (.error notConnectedNfc, s, []) else
  match o.detectCard s with
  | (.error e, s1) => (.error (errFromEtl e), s1, [Ev.detect])
  | (.ok info, s1) =>
    if info.type ≠ CardType.MifareDesfire then
      (.ok ⟨info.uid, false⟩, s1, [Ev.detect])
    else
      match o.createSession s1 with
      | (.error _, s2) =>
          (.ok ⟨info.uid, false⟩, o.clearSession s2,
           [Ev.detect, Ev.sessionCreate false, Ev.clearSession])
      | (.ok _, s2) =>
        if o.castDesfire s2 = false then
          (.ok ⟨info.uid, false⟩, o.clearSession s2,
           [Ev.detect, Ev.sessionCreate true, Ev.castHandle, Ev.clearSession])
        else
          match o.selectApplication piccAid s2 with
          | (.error _, s3) =>
              (.ok ⟨info.uid, false⟩, o.clearSession s3,
               [Ev.detect, Ev.sessionCreate true, Ev.castHandle, Ev.selectApp piccAid,
                Ev.clearSession])
          | (.ok _, s3) =>
            match o.getApplicationIds s3 with
            | (.error _, s4) =>
                (.ok ⟨info.uid, false⟩, o.clearSession s4,
                 [Ev.detect, Ev.sessionCreate true, Ev.castHandle, Ev.selectApp piccAid,
                  Ev.getAids, Ev.clearSession])
            | (.ok aids, s4) =>
                (.ok ⟨info.uid, aids.contains vaultAid⟩, o.clearSession s4,
                 [Ev.detect, Ev.sessionCreate true, Ev.castHandle, Ev.selectApp piccAid,
                  Ev.getAids, Ev.clearSession])

end Pn532Adapter

namespace Pn532Adapter

variable {σ : Type}

/-- Options of the step-7 ChangeKeyCommand (lines 455–464): key 1 becomes the
caller-supplied read key, with the old all-zero default key supplied. -/
def ck1Opts (readKey : List Nat) : ChangeKeyOpts :=
  { keyNo := 1, authMode := DesfireAuthMode.AES, newKeyType := DesfireKeyType.AES,
    oldKeyType := some DesfireKeyType.AES, newKey := readKey, newKeyVersion := 1,
    oldKey := some zeros16 }

/-- Options of the step-8 ChangeKeyCommand (lines 470–478): key 0 becomes the
application master key; the old key is intentionally omitted (self-change). -/
def ck0Opts (masterKey : List Nat) : ChangeKeyOpts :=
  { keyNo := 0, authMode := DesfireAuthMode.AES, newKeyType := DesfireKeyType.AES,
    oldKeyType := none, newKey := masterKey, newKeyVersion := 0, oldKey := none }

/-- The 32-byte payload written at step 10 (lines 488–491): the 16-byte card
secret followed by 16 zero bytes. -/
def initPayload (opts : CardInitOptions) : List Nat :=
  opts.cardSecret ++ List.replicate 16 0

/-- The twelve card calls of the initCard provisioning sequence, in source
order (lines 427–497). -/
def initEv (opts : CardInitOptions) : List Ev :=
  [Ev.selectApp piccAid,
   Ev.auth 0 zeros16 DesfireAuthMode.ISO,
   Ev.setConfig 0 DesfireAuthMode.ISO,
   Ev.createApp opts.aid 15 2 DesfireKeyType.AES,
   Ev.selectApp opts.aid,
   Ev.auth 0 zeros16 DesfireAuthMode.AES,
   Ev.createFile 0 3 1 0 0 0 32,
   Ev.changeKey (ck1Opts opts.readKey),
   Ev.changeKey (ck0Opts opts.appMasterKey),
   Ev.auth 0 opts.appMasterKey DesfireAuthMode.AES,
   Ev.writeData 0 0 (initPayload opts),
   Ev.commit]

/-- The provisioning steps of initCard after the detect/session/cast preamble
(lines 427–500): each failing step closes the session and returns the mapped
error; no later step runs. -/
def initCardSteps (o : CardOps σ) (opts : CardInitOptions) (s2 : σ) :
    NfcResult Bool × σ × List Ev :=
  match o.selectApplication piccAid s2 with
  | (.error e, t) =>
      (.error (errFromEtl e), o.clearSession t, (initEv opts).take 1 ++ [Ev.clearSession])
  | (.ok _, t1) =>
  match o.authenticate 0 zeros16 DesfireAuthMode.ISO t1 with
  | (.error e, t) =>
      (.error (errFromEtl e), o.clearSession t, (initEv opts).take 2 ++ [Ev.clearSession])
  | (.ok _, t2) =>
  match o.setConfigurationPicc 0 DesfireAuthMode.ISO t2 with
  | (.error e, t) =>
      (.error (errFromEtl e), o.clearSession t, (initEv opts).take 3 ++ [Ev.clearSession])
  | (.ok _, t3) =>
  match o.createApplication opts.aid 15 2 DesfireKeyType.AES t3 with
  | (.error e, t) =>
      (.error (errFromEtl e), o.clearSession t, (initEv opts).take 4 ++ [Ev.clearSession])
  | (.ok _, t4) =>
  match o.selectApplication opts.aid t4 with
  | (.error e, t) =>
      (.error (errFromEtl e), o.clearSession t, (initEv opts).take 5 ++ [Ev.clearSession])
  | (.ok _, t5) =>
  match o.authenticate 0 zeros16 DesfireAuthMode.AES t5 with
  | (.error e, t) =>
      (.error (errFromEtl e), o.clearSession t, (initEv opts).take 6 ++ [Ev.clearSession])
  | (.ok _, t6) =>
  match o.createBackupDataFile 0 3 1 0 0 0 32 t6 with
  | (.error e, t) =>
      (.error (errFromEtl e), o.clearSession t, (initEv opts).take 7 ++ [Ev.clearSession])
  | (.ok _, t7) =>
  match o.changeKeyCmd (ck1Opts opts.readKey) t7 with
  | (.error e, t) =>
      (.error (errFromEtl e), o.clearSession t, (initEv opts).take 8 ++ [Ev.clearSession])
  | (.ok _, t8) =>
  match o.changeKeyCmd (ck0Opts opts.appMasterKey) t8 with
  | (.error e, t) =>
      (.error (errFromEtl e), o.clearSession t, (initEv opts).take 9 ++ [Ev.clearSession])
  | (.ok _, t9) =>
  match o.authenticate 0 opts.appMasterKey DesfireAuthMode.AES t9 with
  | (.error e, t) =>
      (.error (errFromEtl e), o.clearSession t, (initEv opts).take 10 ++ [Ev.clearSession])
  | (.ok _, t10) =>
  match o.writeData 0 0 (initPayload opts) t10 with
  | (.error e, t) =>
      (.error (errFromEtl e), o.clearSession t, (initEv opts).take 11 ++ [Ev.clearSession])
  | (.ok _, t11) =>
  match o.commitTransaction t11 with
  | (.error e, t) =>
      (.error (errFromEtl e), o.clearSession t, initEv opts ++ [Ev.clearSession])
  | (.ok _, t12) => (.ok true, o.clearSession t12, initEv opts ++ [Ev.clearSession])

/-- Pn532Adapter::initCard (lines 403–501). -/
def initCard (o : CardOps σ) (st : AdapterSt) (opts : CardInitOptions) (s : σ) :
    NfcResult Bool × σ × List Ev :=
  if st.pn532 = false then (.error notConnectedNfc, s, []) else
  match o.detectCard s with
  | (.error e, s1) => (.error (errFromEtl e), s1, [Ev.detect])
  | (.ok info, s1) =>
    if info.type ≠ CardType.MifareDesfire then
      (.error ⟨"NOT_DESFIRE", "Card is not DESFire-compatible"⟩, s1, [Ev.detect])
    else
      match o.createSession s1 with
      | (.error e, s2) => (.error (errFromEtl e), s2, [Ev.detect, Ev.sessionCreate false])
      | (.ok _, s2) =>
        if o.castDesfire s2 = false then
          (.error ⟨"NOT_DESFIRE", "Could not obtain DESFire card from session"⟩,
           o.clearSession s2,
           [Ev.detect, Ev.sessionCreate true, Ev.castHandle, Ev.clearSession])
        else
          let r := initCardSteps o opts s2
          (r.1, r.2.1, [Ev.detect, Ev.sessionCreate true, Ev.castHandle] ++ r.2.2)

/-- Pn532Adapter::readCardSecret (lines 503–536): selects the fixed vault AID
{0x50, 0x57, 0x00}, authenticates key 1 with the supplied read key, and reads
16 bytes from file 0 at offset 0. -/
def readCardSecret (o : CardOps σ) (st : AdapterSt) (readKey : List Nat) (s : σ) :
    NfcResult (List Nat) × σ × List Ev :=
  if st.pn532 = false then (.error notConnectedNfc, s, []) else
  match o.detectCard s with
  | (.error e, s1) => (.error (errFromEtl e), s1, [Ev.detect])
  | (.ok info, s1) =>
    if info.type ≠ CardType.MifareDesfire then
      (.error ⟨"NOT_DESFIRE", "Card is not DESFire-compatible"⟩, s1, [Ev.detect])
    else
      match o.createSession s1 with
      | (.error e, s2) => (.error (errFromEtl e), s2, [Ev.detect, Ev.sessionCreate false])
      | (.ok _, s2) =>
        if o.castDesfire s2 = false then
          (.error ⟨"NOT_DESFIRE", "Could not obtain DESFire card from session"⟩,
           o.clearSession s2,
           [Ev.detect, Ev.sessionCreate true, Ev.castHandle, Ev.clearSession])
        else
          match o.selectApplication vaultAid s2 with
          | (.error e, s3) =>
              (.error (errFromEtl e), o.clearSession s3,
               [Ev.detect, Ev.sessionCreate true, Ev.castHandle, Ev.selectApp vaultAid,
                Ev.clearSession])
          | (.ok _, s3) =>
            match o.authenticate 1 readKey DesfireAuthMode.AES s3 with
            | (.error e, s4) =>
                (.error (errFromEtl e), o.clearSession s4,
                 [Ev.detect, Ev.sessionCreate true, Ev.castHandle, Ev.selectApp vaultAid,
                  Ev.auth 1 readKey DesfireAuthMode.AES, Ev.clearSession])
            | (.ok _, s4) =>
              match o.readData 0 0 16 s4 with
              | (.error e, s5) =>
                  (.error (errFromEtl e), o.clearSession s5,
                   [Ev.detect, Ev.sessionCreate true, Ev.castHandle, Ev.selectApp vaultAid,
                    Ev.auth 1 readKey DesfireAuthMode.AES, Ev.readData 0 0 16,
                    Ev.clearSession])
              | (.ok data, s5) =>
                  (.ok data, o.clearSession s5,
                   [Ev.detect, Ev.sessionCreate true, Ev.castHandle, Ev.selectApp vaultAid,
                    Ev.auth 1 readKey DesfireAuthMode.AES, Ev.readData 0 0 16,
                    Ev.clearSession])

/-- Pn532Adapter::cardFreeMemory (lines 538–565). -/
def cardFreeMemory (o : CardOps σ) (st : AdapterSt) (s : σ) :
    NfcResult Nat × σ × List Ev :=
  if st.pn532 = false then (.error notConnectedNfc, s, []) else
  match o.detectCard s with
  | (.error e, s1) => (.error (errFromEtl e), s1, [Ev.detect])
  | (.ok info, s1) =>
    if info.type ≠ CardType.MifareDesfire then
      (.error ⟨"NOT_DESFIRE", "Card is not DESFire-compatible"⟩, s1, [Ev.detect])
    else
      match o.createSession s1 with
      | (.error e, s2) => (.error (errFromEtl e), s2, [Ev.detect, Ev.sessionCreate false])
      | (.ok _, s2) =>
        if o.castDesfire s2 = false then
          (.error ⟨"NOT_DESFIRE", "Could not obtain DESFire card from session"⟩,
           o.clearSession s2,
           [Ev.detect, Ev.sessionCreate true, Ev.castHandle, Ev.clearSession])
        else
          match o.selectApplication piccAid s2 with
          | (.error e, s3) =>
              (.error (errFromEtl e), o.clearSession s3,
               [Ev.detect, Ev.sessionCreate true, Ev.castHandle, Ev.selectApp piccAid,
                Ev.clearSession])
          | (.ok _, s3) =>
            match o.freeMemory s3 with
            | (.error e, s4) =>
                (.error (errFromEtl e), o.clearSession s4,
                 [Ev.detect, Ev.sessionCreate true, Ev.castHandle, Ev.selectApp piccAid,
                  Ev.freeMem, Ev.clearSession])
            | (.ok n, s4) =>
                (.ok n, o.clearSession s4,
                 [Ev.detect, Ev.sessionCreate true, Ev.castHandle, Ev.selectApp piccAid,
                  Ev.freeMem, Ev.clearSession])

/-- Pn532Adapter::formatCard (lines 567–598): root select, authenticate with the
default all-zero ISO key, then FormatPICC. -/
def formatCard (o : CardOps σ) (st : AdapterSt) (s : σ) :
    NfcResult Bool × σ × List Ev :=
  if st.pn532 = false then (.error notConnectedNfc, s, []) else
  match o.detectCard s with
  | (.error e, s1) => (.error (errFromEtl e), s1, [Ev.detect])
  | (.ok info, s1) =>
    if info.type ≠ CardType.MifareDesfire then
      (.error ⟨"NOT_DESFIRE", "Card is not DESFire-compatible"⟩, s1, [Ev.detect])
    else
      match o.createSession s1 with
      | (.error e, s2) => (.error (errFromEtl e), s2, [Ev.detect, Ev.sessionCreate false])
      | (.ok _, s2) =>
        if o.castDesfire s2 = false then
          (.error ⟨"NOT_DESFIRE", "Could not obtain DESFire card from session"⟩,
           o.clearSession s2,
           [Ev.detect, Ev.sessionCreate true, Ev.castHandle, Ev.clearSession])
        else
          match o.selectApplication piccAid s2 with
          | (.error e, s3) =>
              (.error (errFromEtl e), o.clearSession s3,
               [Ev.detect, Ev.sessionCreate true, Ev.castHandle, Ev.selectApp piccAid,
                Ev.clearSession])
          | (.ok _, s3) =>
            match o.authenticate 0 zeros16 DesfireAuthMode.ISO s3 with
            | (.error e, s4) =>
                (.error (errFromEtl e), o.clearSession s4,
                 [Ev.detect, Ev.sessionCreate true, Ev.castHandle, Ev.selectApp piccAid,
                  Ev.auth 0 zeros16 DesfireAuthMode.ISO, Ev.clearSession])
            | (.ok _, s4) =>
              match o.formatPicc s4 with
              | (.error e, s5) =>
                  (.error (errFromEtl e), o.clearSession s5,
                   [Ev.detect, Ev.sessionCreate true, Ev.castHandle, Ev.selectApp piccAid,
                    Ev.auth 0 zeros16 DesfireAuthMode.ISO, Ev.formatPicc, Ev.clearSession])
              | (.ok _, s5) =>
                  (.ok true, o.clearSession s5,
                   [Ev.detect, Ev.sessionCreate true, Ev.castHandle, Ev.selectApp piccAid,
                    Ev.auth 0 zeros16 DesfireAuthMode.ISO, Ev.formatPicc, Ev.clearSession])

/-- Pn532Adapter::getCardApplicationIds (lines 600–632). -/
def getCardApplicationIds (o : CardOps σ) (st : AdapterSt) (s : σ) :
    NfcResult (List (List Nat)) × σ × List Ev :=
  if st.pn532 = false then (.error notConnectedNfc, s, []) else
  match o.detectCard s with
  | (.error e, s1) => (.error (errFromEtl e), s1, [Ev.detect])
  | (.ok info, s1) =>
    if info.type ≠ CardType.MifareDesfire then
      (.error ⟨"NOT_DESFIRE", "Card is not DESFire-compatible"⟩, s1, [Ev.detect])
    else
      match o.createSession s1 with
      | (.error e, s2) => (.error (errFromEtl e), s2, [Ev.detect, Ev.sessionCreate false])
      | (.ok _, s2) =>
        if o.castDesfire s2 = false then
          (.error ⟨"NOT_DESFIRE", "Could not obtain DESFire card from session"⟩,
           o.clearSession s2,
           [Ev.detect, Ev.sessionCreate true, Ev.castHandle, Ev.clearSession])
        else
          match o.selectApplication piccAid s2 with
          | (.error e, s3) =>
              (.error (errFromEtl e), o.clearSession s3,
               [Ev.detect, Ev.sessionCreate true, Ev.castHandle, Ev.selectApp piccAid,
                Ev.clearSession])
          | (.ok _, s3) =>
            match o.getApplicationIds s3 with
            | (.error e, s4) =>
                (.error (errFromEtl e), o.clearSession s4,
                 [Ev.detect, Ev.sessionCreate true, Ev.castHandle, Ev.selectApp piccAid,
                  Ev.getAids, Ev.clearSession])
            | (.ok aids, s4) =>
                (.ok aids, o.clearSession s4,
                 [Ev.detect, Ev.sessionCreate true, Ev.castHandle, Ev.selectApp piccAid,
                  Ev.getAids, Ev.clearSession])

end Pn532Adapter

/-- ProbeCardWorker::OnOK (NfcCppBinding.cc lines 417–449): a successful probe is
rendered with a null uid when the uid is empty; a NO_CARD error is absorbed into
`{uid: null, isInitialised: false}`; every other error is surfaced as a rejection. -/
def probeOnOK (r : NfcResult CardProbeResult) : Except NfcError JsProbe :=
  match r with
  | .ok p => .ok ⟨if p.uid = [] then none else some (hexJoin ":" p.uid), p.isInitialised⟩
  | .error e => if e.code = "NO_CARD" then .ok ⟨none, false⟩ else .error e

/-- The probeCard operation as observed at the external (JS) interface: the
adapter result piped through ProbeCardWorker::OnOK. -/
def probeCardJs {σ : Type} (o : CardOps σ) (st : AdapterSt) (s : σ) :
    Except NfcError JsProbe × σ × List Ev :=
  let r := Pn532Adapter.probeCard o st s
  (probeOnOK r.1, r.2.1, r.2.2)

-- ---------------------------------------------------------------------------
-- A DESFire card simulator (for the provisioning/read round-trip)
-- ---------------------------------------------------------------------------

/-- Insert or replace a binding in an association list. -/
def assocSet {α β : Type} [DecidableEq α] (k : α) (v : β) : List (α × β) → List (α × β)
  | [] => [(k, v)]
  | (k2, v2) :: rest => if k = k2 then (k, v) :: rest else (k2, v2) :: assocSet k v rest

/-- Look up a binding in an association list. -/
def assocGet {α β : Type} [DecidableEq α] (k : α) : List (α × β) → Option β
  | [] => none
  | (k2, v) :: rest => if k = k2 then some v else assocGet k rest

/-- A file on the simulated card: its read-access and write-access key numbers
and its contents. -/
structure SimFile where
  readAcc : Nat
  writeAcc : Nat
  contents : List Nat
deriving DecidableEq

/-- Modelled from the spec: the DESFire card handle and session manager are
external collaborators (src holds only their call sites), so the card itself is
modelled from the spec's §4.4/§4.5 description — applications keyed by 3-byte
AID, per-application numbered AES keys (factory default all-zero), backup data
files whose writes stay pending until commit, authentication context invalidated
by selecting an application or changing the authenticated key slot. -/
structure CardSim where
  uid : List Nat
  apps : List (List Nat)
  keys : List ((List Nat × Nat) × List Nat)
  files : List ((List Nat × Nat) × SimFile)
  pending : List ((List Nat × Nat) × SimFile)
  selected : List Nat
  authed : Option Nat
  sessionOpen : Bool
  randomUidDisabled : Bool
deriving DecidableEq

/-- Modelled from the spec: a factory-state card — only the root application,
whose key 0 is the all-zero default key; no files; no open session. -/
def factoryCard (uid : List Nat) : CardSim :=
  { uid := uid, apps := [piccAid], keys := [((piccAid, 0), zeros16)], files := [],
    pending := [], selected := piccAid, authed := none, sessionOpen := false,
    randomUidDisabled := false }

/-- Modelled from the spec: factory default keys (all zero) for the key slots of
a newly created application. -/
def factoryKeys (aid : List Nat) (numKeys : Nat)
    (ks : List ((List Nat × Nat) × List Nat)) : List ((List Nat × Nat) × List Nat) :=
  (List.range numKeys).foldl (fun acc i => assocSet (aid, i) zeros16 acc) ks

/-- Modelled from the spec: the card-facing oracle interpretation over the
simulator.  Detection always sees the simulated DESFire card; at most one
session is open at a time; authentication compares the supplied key with the
stored key of the selected application's slot; a backup-data file write stays
pending until commitTransaction applies it; readData serves bytes from the
committed contents, gated on the file's read-access key. -/
def simOps : CardOps CardSim :=
  { detectCard := fun s => (.ok ⟨CardType.MifareDesfire, s.uid⟩, s)
    createSession := fun s =>
      if s.sessionOpen then (.error (.cardManager CmError.OtherCm "session already open"), s)
      else (.ok (), { s with sessionOpen := true })
    castDesfire := fun _ => true
    selectApplication := fun aid s =>
      if aid ∈ s.apps then (.ok (), { s with selected := aid, authed := none })
      else (.error (.other "application not found"), s)
    authenticate := fun keyNo key _ s =>
      match assocGet (s.selected, keyNo) s.keys with
      | some k =>
          if k = key then (.ok (), { s with authed := some keyNo })
          else (.error (.other "authentication failed"), s)
      | none => (.error (.other "no such key slot"), s)
    setConfigurationPicc := fun _ _ s =>
      if s.authed.isSome then (.ok (), { s with randomUidDisabled := true })
      else (.error (.other "not authenticated"), s)
    createApplication := fun aid _ numKeys _ s =>
      if aid ∈ s.apps then (.error (.other "duplicate application"), s)
      else if s.authed.isSome then
        (.ok (), { s with apps := s.apps ++ [aid], keys := factoryKeys aid numKeys s.keys })
      else (.error (.other "not authenticated"), s)
    createBackupDataFile := fun fileNo _ r w _ _ size s =>
      if s.authed.isSome then
        (.ok (), { s with files := assocSet (s.selected, fileNo) ⟨r, w, List.replicate size 0⟩ s.files })
      else (.error (.other "not authenticated"), s)
    changeKeyCmd := fun opts s =>
      match s.authed with
      | none => (.error (.other "not authenticated"), s)
      | some a =>
        if opts.keyNo = a then
          (.ok (), { s with keys := assocSet (s.selected, opts.keyNo) opts.newKey s.keys,
                            authed := none })
        else
          match opts.oldKey, assocGet (s.selected, opts.keyNo) s.keys with
          | some old, some cur =>
              if old = cur then
                (.ok (), { s with keys := assocSet (s.selected, opts.keyNo) opts.newKey s.keys })
              else (.error (.other "wrong old key"), s)
          | _, _ => (.error (.other "missing old key"), s)
    writeData := fun fileNo offset payload s =>
      match s.authed, assocGet (s.selected, fileNo) s.files with
      | some a, some f =>
          if a = f.writeAcc then
            let base := ((assocGet (s.selected, fileNo) s.pending).getD f).contents
            let contents := base.take offset ++ payload ++ base.drop (offset + payload.length)
            let pf : SimFile := ⟨f.readAcc, f.writeAcc, contents⟩
            (.ok (), { s with pending := assocSet (s.selected, fileNo) pf s.pending })
          else (.error (.other "write access denied"), s)
      | _, _ => (.error (.other "no such file"), s)
    commitTransaction := fun s =>
      (.ok (), { s with files := s.pending.foldl (fun acc kv => assocSet kv.1 kv.2 acc) s.files,
                        pending := [] })
    readData := fun fileNo offset len s =>
      match s.authed, assocGet (s.selected, fileNo) s.files with
      | some a, some f =>
          if a = f.readAcc then (.ok ((f.contents.drop offset).take len), s)
          else (.error (.other "read access denied"), s)
      | _, _ => (.error (.other "no such file"), s)
    getApplicationIds := fun s => (.ok s.apps, s)
    freeMemory := fun s => (.ok 4096, s)
    formatPicc := fun s =>
      if s.authed.isSome then
        (.ok (), { s with apps := [piccAid], keys := [((piccAid, 0), zeros16)],
                          files := [], pending := [] })
      else (.error (.other "not authenticated"), s)
    clearSession := fun s => { s with sessionOpen := false, authed := none, selected := piccAid }
    getFirmwareVersion := fun s => (.ok ⟨50, 1, 6, 7⟩, s)
    selfTest := fun _ s => (.ok (), s)
    getVersionData := fun s => (.ok [], s) }

-- ---------------------------------------------------------------------------
-- Concrete oracles and states for witnesses
-- ---------------------------------------------------------------------------

/-- A stateless oracle over Unit on which every driver call succeeds. -/
def pureOps : CardOps Unit :=
  { detectCard := fun s => (.ok ⟨CardType.MifareDesfire, [4, 161, 178, 195, 212, 229, 246]⟩, s)
    createSession := fun s => (.ok (), s)
    castDesfire := fun _ => true
    selectApplication := fun _ s => (.ok (), s)
    authenticate := fun _ _ _ s => (.ok (), s)
    setConfigurationPicc := fun _ _ s => (.ok (), s)
    createApplication := fun _ _ _ _ s => (.ok (), s)
    createBackupDataFile := fun _ _ _ _ _ _ _ s => (.ok (), s)
    changeKeyCmd := fun _ s => (.ok (), s)
    writeData := fun _ _ _ s => (.ok (), s)
    commitTransaction := fun s => (.ok (), s)
    readData := fun _ _ len s => (.ok (List.replicate len 0), s)
    getApplicationIds := fun s => (.ok [vaultAid], s)
    freeMemory := fun s => (.ok 4096, s)
    formatPicc := fun s => (.ok (), s)
    clearSession := fun s => s
    getFirmwareVersion := fun s => (.ok ⟨50, 1, 6, 7⟩, s)
    selfTest := fun _ s => (.ok (), s)
    getVersionData := fun s => (.ok [], s) }

/-- A connected adapter state. -/
def stConn : AdapterSt := ⟨some "COM3", true, true, true⟩

/-- A disconnected adapter state. -/
def stDisc : AdapterSt := ⟨none, false, false, false⟩

/-- The UID used by the stateless witness oracle. -/
def pureUid : List Nat := [4, 161, 178, 195, 212, 229, 246]

/-- A stateless oracle whose GetVersion command returns the given payload. -/
def versionOps (bytes : List Nat) : CardOps Unit :=
  { pureOps with getVersionData := fun s => (.ok bytes, s) }

/-- A 14-byte GetVersion payload whose storage code byte (index 5) is `c`. -/
def verPayload (c : Nat) : List Nat :=
  [4, 1, 1, 1, 0, c, 5, 4, 1, 1, 1, 4, 25, 5]

/-- The uid rendering of ProbeCardWorker::OnOK (NfcCppBinding.cc lines 422–431):
null for an empty uid, colon-separated uppercase hex otherwise. -/
def uidOpt (uid : List Nat) : Option String :=
  if uid = [] then none else some (hexJoin ":" uid)

/-- The detect/session/cast preamble trace of a card-vault operation. -/
def initPreamble : List Ev := [Ev.detect, Ev.sessionCreate true, Ev.castHandle]

/-- A concrete CardInitOptions value for witnesses. -/
def opts0 : CardInitOptions := ⟨[80, 87, 0], zeros16, zeros16, List.replicate 16 1⟩

-- ---------------------------------------------------------------------------
-- Claims
-- ---------------------------------------------------------------------------

/-- Claim C8: connect on an already-connected adapter returns a HARDWARE_ERROR
and leaves the connection state (serial handle, driver, session manager)
unchanged, and disconnect is idempotent — every call, including a second call
immediately after a first, returns true. -/
theorem connect_guard_disconnect_idempotent :
    (∀ (env : ConnectEnv) (st : AdapterSt) (port : String), st.serial.isSome = true →
      Pn532Adapter.connect env st port
        = (.error ⟨"HARDWARE_ERROR", "Already connected to a port."⟩, st)) ∧
    (∀ st : AdapterSt, (Pn532Adapter.disconnect st).1 = .ok true) ∧
    (∀ st : AdapterSt,
      (Pn532Adapter.disconnect (Pn532Adapter.disconnect st).2).1 = .ok true) := by
  refine ⟨?_, ?_, ?_⟩
  · intro env st port h
    simp [Pn532Adapter.connect, h]
  · intro st; rfl
  · intro st; rfl

/-- Witness for C8 at a concrete connected state. -/
theorem connect_guard_disconnect_idempotent_witness :
    Pn532Adapter.connect ⟨true, true⟩ stConn "COM4"
      = (.error ⟨"HARDWARE_ERROR", "Already connected to a port."⟩, stConn) :=
  connect_guard_disconnect_idempotent.1 ⟨true, true⟩ stConn "COM4" rfl

/-- Claim C3: every operation other than connect and disconnect, invoked with no
open connection, returns NOT_CONNECTED generated locally — the driver-call
trace is empty (no transport or driver call is attempted) and the collaborator
state is untouched. -/
theorem notConnected_guard {σ : Type} (o : CardOps σ) (st : AdapterSt) (s : σ)
    (h : st.pn532 = false) :
    Pn532Adapter.getFirmwareVersion o st s = (.error notConnectedNfc, s, []) ∧
    (∀ hasCb, Pn532Adapter.runSelfTests o st hasCb s = (.error notConnectedNfc, s, [])) ∧
    Pn532Adapter.getCardVersion o st s = (.error notConnectedNfc, s, []) ∧
    Pn532Adapter.peekCardUid o st s = (.error notConnectedNfc, s, []) ∧
    Pn532Adapter.isCardInitialised o st s = (.error notConnectedNfc, s, []) ∧
    Pn532Adapter.probeCard o st s = (.error notConnectedNfc, s, []) ∧
    (∀ opts, Pn532Adapter.initCard o st opts s = (.error notConnectedNfc, s, [])) ∧
    (∀ key, Pn532Adapter.readCardSecret o st key s = (.error notConnectedNfc, s, [])) ∧
    Pn532Adapter.cardFreeMemory o st s = (.error notConnectedNfc, s, []) ∧
    Pn532Adapter.formatCard o st s = (.error notConnectedNfc, s, []) ∧
    Pn532Adapter.getCardApplicationIds o st s = (.error notConnectedNfc, s, []) := by
  simp [Pn532Adapter.getFirmwareVersion, Pn532Adapter.runSelfTests,
        Pn532Adapter.getCardVersion, Pn532Adapter.peekCardUid,
        Pn532Adapter.isCardInitialised, Pn532Adapter.probeCard, Pn532Adapter.initCard,
        Pn532Adapter.readCardSecret, Pn532Adapter.cardFreeMemory, Pn532Adapter.formatCard,
        Pn532Adapter.getCardApplicationIds, h]

/-- Witness for C3: probeCard on a disconnected adapter. -/
theorem notConnected_guard_witness :
    Pn532Adapter.probeCard pureOps stDisc () = (.error notConnectedNfc, (), []) :=
  (notConnected_guard pureOps stDisc () rfl).2.2.2.2.2.1

/-- Counterexample for C2: inside a card-vault operation, a PN532
protocol-layer timeout is mapped by errFromEtl to HARDWARE_ERROR, not to
IO_TIMEOUT (here: cardFreeMemory whose detection fails with
Pn532Error::Timeout). -/
theorem pn532_timeout_not_io_timeout :
    (Pn532Adapter.cardFreeMemory
       { pureOps with detectCard := fun s => (.error (.pn532 PnError.Timeout "Timeout"), s) }
       stConn ()).1 = .error ⟨"HARDWARE_ERROR", "Timeout"⟩ ∧
    errFromEtl (.pn532 PnError.Timeout "Timeout") = ⟨"HARDWARE_ERROR", "Timeout"⟩ ∧
    ("HARDWARE_ERROR" : String) ≠ "IO_TIMEOUT" := by
  refine ⟨rfl, rfl, by decide⟩

/-- Claim C2 (amended): in the card-vault error translation errFromEtl, a
transport-layer (HardwareError) timeout maps to IO_TIMEOUT; NoCardPresent and
UnsupportedCardType map to NO_CARD and NOT_DESFIRE; every other failure —
including a PN532 protocol-layer timeout — maps to HARDWARE_ERROR with the
underlying message text preserved; and card-vault operations route their
detection failures through this mapping. -/
theorem errFromEtl_mapping :
    (∀ m, errFromEtl (.cardManager CmError.NoCardPresent m)
        = ⟨"NO_CARD", "No card detected"⟩) ∧
    (∀ m, errFromEtl (.cardManager CmError.UnsupportedCardType m)
        = ⟨"NOT_DESFIRE", "Card is not DESFire-compatible"⟩) ∧
    (∀ m, errFromEtl (.hardware HwError.Timeout m) = ⟨"IO_TIMEOUT", m⟩) ∧
    (∀ m, errFromEtl (.pn532 PnError.Timeout m) = ⟨"HARDWARE_ERROR", m⟩) ∧
    (∀ m, errFromEtl (.cardManager CmError.OtherCm m) = ⟨"HARDWARE_ERROR", m⟩) ∧
    (∀ m, errFromEtl (.hardware HwError.OtherHw m) = ⟨"HARDWARE_ERROR", m⟩) ∧
    (∀ m, errFromEtl (.pn532 PnError.OtherPn m) = ⟨"HARDWARE_ERROR", m⟩) ∧
    (∀ m, errFromEtl (.other m) = ⟨"HARDWARE_ERROR", m⟩) ∧
    (∀ (σ : Type) (o : CardOps σ) (st : AdapterSt) (s : σ) (e : EtlError) (s1 : σ),
      st.pn532 = true → o.detectCard s = (.error e, s1) →
      (Pn532Adapter.cardFreeMemory o st s).1 = .error (errFromEtl e)) := by
  refine ⟨fun m => rfl, fun m => rfl, fun m => rfl, fun m => rfl, fun m => rfl,
          fun m => rfl, fun m => rfl, fun m => rfl, ?_⟩
  intro σ o st s e s1 hp hd
  simp [Pn532Adapter.cardFreeMemory, hp, hd]

/-- Witness for the amended C2 at a concrete failing detection. -/
theorem errFromEtl_mapping_witness :
    (Pn532Adapter.cardFreeMemory
       { pureOps with detectCard := fun s => (.error (.hardware HwError.Timeout "hw"), s) }
       stConn ()).1 = .error (errFromEtl (.hardware HwError.Timeout "hw")) :=
  errFromEtl_mapping.2.2.2.2.2.2.2.2 Unit
    { pureOps with detectCard := fun s => (.error (.hardware HwError.Timeout "hw"), s) }
    stConn () (.hardware HwError.Timeout "hw") () rfl rfl

/-- Counterexample for C9 as frozen: the claim quantifies over every storage
code byte c > 0, but at code 0x40 (= 64) the source's shift count
0x40 >> 1 = 32 reaches the width of the uint32_t operand of
`1u << (storageCode >> 1)`, so the size computation is undefined and in
particular does not decode the storage size as 2^(0x40 >> 1) bytes. -/
theorem storage_code_0x40_shift_undefined :
    0 < 64 ∧ storageSizeBytes 64 = none ∧
    storageSizeBytes 64 ≠ some (2 ^ (64 >>> 1)) :=
  ⟨by decide, by decide, by decide⟩

/-- Claim C9 (amended): for every storage code byte c with 0 < c < 0x40 — the
range on which the source's 32-bit shift 1u << (c >> 1) is defined —
getCardVersion decodes the storage size as exactly 2^(c >> 1) bytes with bit 0
of c meaning approximate; in particular code 0x18 yields the exact size 4096
bytes rendered as "4 KB", and code 0x19 yields the approximate rendering
"~4 KB".  For codes at or above 0x40 the shift count reaches the operand width
and the computation is undefined. -/
theorem storage_size_decoding_bounded :
    (∀ c : Nat, 0 < c → c < 64 →
      storageSizeBytes c = some (2 ^ (c >>> 1)) ∧
      ∃ v : CardVersionInfo,
        (Pn532Adapter.getCardVersion (versionOps (verPayload c)) stConn ()).1 = .ok v ∧
        v.storage = (if c &&& 1 = 1 then "~" else "")
          ++ (if 1024 ≤ 2 ^ (c >>> 1) then toString (2 ^ (c >>> 1) / 1024) ++ " KB"
              else toString (2 ^ (c >>> 1)) ++ " B")) ∧
    (∀ c : Nat, 64 ≤ c → storageSizeBytes c = none) ∧
    (∃ v : CardVersionInfo,
      (Pn532Adapter.getCardVersion (versionOps (verPayload 24)) stConn ()).1 = .ok v ∧
      v.storage = "4 KB" ∧ 2 ^ (24 >>> 1) = 4096) ∧
    (∃ v : CardVersionInfo,
      (Pn532Adapter.getCardVersion (versionOps (verPayload 25)) stConn ()).1 = .ok v ∧
      v.storage = "~4 KB") := by
  have hsz : ∀ c : Nat, c < 64 → storageSizeBytes c = some (2 ^ (c >>> 1)) := by
    intro c hlt
    have h2 : c >>> 1 < 32 := by
      rw [Nat.shiftRight_eq_div_pow, pow_one]
      omega
    simp [storageSizeBytes, h2, Nat.shiftLeft_eq]
  refine ⟨?_, ?_, ?_, ?_⟩
  · intro c hc hlt
    refine ⟨hsz c hlt, Pn532Adapter.buildVersionInfo pureUid (verPayload c), ?_, ?_⟩
    · simp [Pn532Adapter.getCardVersion, versionOps, pureOps, stConn, verPayload, pureUid]
    · simp [Pn532Adapter.buildVersionInfo, verPayload, storageString, hsz c hlt, hc,
            List.getD]
  · intro c hge
    have h2 : ¬ c >>> 1 < 32 := by
      rw [Nat.shiftRight_eq_div_pow, pow_one]
      omega
    simp [storageSizeBytes, h2]
  · exact ⟨Pn532Adapter.buildVersionInfo pureUid (verPayload 24), rfl, rfl, rfl⟩
  · exact ⟨Pn532Adapter.buildVersionInfo pureUid (verPayload 25), rfl, rfl⟩

/-- Witness for the amended C9 at the concrete exact storage code 0x18. -/
theorem storage_size_decoding_bounded_witness :
    storageSizeBytes 24 = some (2 ^ (24 >>> 1)) ∧
    ∃ v : CardVersionInfo,
      (Pn532Adapter.getCardVersion (versionOps (verPayload 24)) stConn ()).1 = .ok v ∧
      v.storage = (if 24 &&& 1 = 1 then "~" else "")
        ++ (if 1024 ≤ 2 ^ (24 >>> 1) then toString (2 ^ (24 >>> 1) / 1024) ++ " KB"
            else toString (2 ^ (24 >>> 1)) ++ " B") :=
  storage_size_decoding_bounded.1 24 (by decide) (by decide)

/-- Claim C10: when getCardVersion's GetVersion command succeeds but returns a
payload of fewer than 14 bytes, the operation still succeeds with hwVersion,
swVersion and storage left as empty strings; storage is likewise empty whenever
the storage code byte is 0. -/
theorem short_version_payload_fields_empty {σ : Type} (o : CardOps σ) (st : AdapterSt)
    (s s1 s2 s3 : σ) (info : CardInfo) (bytes : List Nat)
    (hp : st.pn532 = true)
    (hd : o.detectCard s = (.ok info, s1))
    (ht : info.type = CardType.MifareDesfire)
    (hs : o.createSession s1 = (.ok (), s2))
    (hc : o.castDesfire s2 = true)
    (hv : o.getVersionData s2 = (.ok bytes, s3)) :
    (bytes.length < 14 → ∃ v : CardVersionInfo,
      (Pn532Adapter.getCardVersion o st s).1 = .ok v ∧
      v.hwVersion = "" ∧ v.swVersion = "" ∧ v.storage = "") ∧
    (bytes.getD 5 0 = 0 → ∃ v : CardVersionInfo,
      (Pn532Adapter.getCardVersion o st s).1 = .ok v ∧ v.storage = "") := by
  have hres : (Pn532Adapter.getCardVersion o st s).1
      = .ok (Pn532Adapter.buildVersionInfo info.uid bytes) := by
    simp [Pn532Adapter.getCardVersion, hp, hd, ht, hs, hc, hv]
  constructor
  · intro hlen
    refine ⟨_, hres, ?_, ?_, ?_⟩ <;>
      simp [Pn532Adapter.buildVersionInfo, Nat.not_le.mpr hlen]
  · intro h0
    refine ⟨_, hres, ?_⟩
    simp [List.getD] at h0
    simp [Pn532Adapter.buildVersionInfo, List.getD, h0]

/-- Witness for C10 at a concrete 3-byte payload. -/
theorem short_version_payload_fields_empty_witness :
    ∃ v : CardVersionInfo,
      (Pn532Adapter.getCardVersion (versionOps [1, 2, 3]) stConn ()).1 = .ok v ∧
      v.hwVersion = "" ∧ v.swVersion = "" ∧ v.storage = "" :=
  (short_version_payload_fields_empty (versionOps [1, 2, 3]) stConn () () () ()
    ⟨CardType.MifareDesfire, pureUid⟩ [1, 2, 3] rfl rfl rfl rfl rfl rfl).1 (by decide)

/-- Claim C5: runSelfTests on a connected adapter returns exactly five rows in
the fixed canonical order, invokes the progress callback once after each test
with that test's row before the next test runs, never aborts on a failing test,
and allPassed holds iff all five tests succeeded. -/
theorem runSelfTests_characterisation {σ : Type} (o : CardOps σ) (st : AdapterSt)
    (s s1 s2 s3 s4 s5 : σ) (q0 q1 q2 q3 q4 : EtlResult Unit)
    (hp : st.pn532 = true)
    (h0 : o.selfTest TestType.RomChecksum s = (q0, s1))
    (h1 : o.selfTest TestType.RamIntegrity s1 = (q1, s2))
    (h2 : o.selfTest TestType.CommunicationLine s2 = (q2, s3))
    (h3 : o.selfTest TestType.EchoBack s3 = (q3, s4))
    (h4 : o.selfTest TestType.AntennaContinuity s4 = (q4, s5)) :
    Pn532Adapter.runSelfTests o st true s =
      (.ok ⟨[Pn532Adapter.row "ROM Check" q0, Pn532Adapter.row "RAM Check" q1,
             Pn532Adapter.row "Communication" q2, Pn532Adapter.row "Echo Test" q3,
             Pn532Adapter.row "Antenna" q4]⟩, s5,
       [Ev.selfTest TestType.RomChecksum, Ev.progress (Pn532Adapter.row "ROM Check" q0),
        Ev.selfTest TestType.RamIntegrity, Ev.progress (Pn532Adapter.row "RAM Check" q1),
        Ev.selfTest TestType.CommunicationLine,
        Ev.progress (Pn532Adapter.row "Communication" q2),
        Ev.selfTest TestType.EchoBack, Ev.progress (Pn532Adapter.row "Echo Test" q3),
        Ev.selfTest TestType.AntennaContinuity,
        Ev.progress (Pn532Adapter.row "Antenna" q4)]) ∧
    (SelfTestReport.allPassed
        ⟨[Pn532Adapter.row "ROM Check" q0, Pn532Adapter.row "RAM Check" q1,
          Pn532Adapter.row "Communication" q2, Pn532Adapter.row "Echo Test" q3,
          Pn532Adapter.row "Antenna" q4]⟩ = true ↔
      q0 = .ok () ∧ q1 = .ok () ∧ q2 = .ok () ∧ q3 = .ok () ∧ q4 = .ok ()) := by
  constructor
  · simp [Pn532Adapter.runSelfTests, Pn532Adapter.runOneTest, hp, h0, h1, h2, h3, h4]
  · cases q0 <;> cases q1 <;> cases q2 <;> cases q3 <;> cases q4 <;>
      simp [SelfTestReport.allPassed, Pn532Adapter.row]

/-- Witness for C5: one failing test (RAM Check) among four passing ones. -/
theorem runSelfTests_characterisation_witness :
    Pn532Adapter.runSelfTests
      { pureOps with selfTest := fun t s =>
          (if t = TestType.RamIntegrity then .error (.pn532 PnError.OtherPn "ram") else .ok (),
           s) }
      stConn true () =
      (.ok ⟨[Pn532Adapter.row "ROM Check" (.ok ()),
             Pn532Adapter.row "RAM Check" (.error (.pn532 PnError.OtherPn "ram")),
             Pn532Adapter.row "Communication" (.ok ()),
             Pn532Adapter.row "Echo Test" (.ok ()),
             Pn532Adapter.row "Antenna" (.ok ())]⟩, (),
       [Ev.selfTest TestType.RomChecksum, Ev.progress (Pn532Adapter.row "ROM Check" (.ok ())),
        Ev.selfTest TestType.RamIntegrity,
        Ev.progress (Pn532Adapter.row "RAM Check" (.error (.pn532 PnError.OtherPn "ram"))),
        Ev.selfTest TestType.CommunicationLine,
        Ev.progress (Pn532Adapter.row "Communication" (.ok ())),
        Ev.selfTest TestType.EchoBack, Ev.progress (Pn532Adapter.row "Echo Test" (.ok ())),
        Ev.selfTest TestType.AntennaContinuity,
        Ev.progress (Pn532Adapter.row "Antenna" (.ok ()))]) :=
  (runSelfTests_characterisation
    { pureOps with selfTest := fun t s =>
        (if t = TestType.RamIntegrity then .error (.pn532 PnError.OtherPn "ram") else .ok (),
         s) }
    stConn () () () () () () (.ok ()) (.error (.pn532 PnError.OtherPn "ram")) (.ok ())
    (.ok ()) (.ok ()) rfl rfl rfl rfl rfl rfl).1

/-- Claim C4: at the external interface, probeCard never returns an error for
the no-card case (it resolves to null uid and false); after a successful
detection, any downstream failure — non-DESFire type, session creation failure,
failed handle cast, select failure, getApplicationIds failure — degrades to the
detected uid with isInitialised false; only a detection failure other than
no-card surfaces as an error. -/
theorem probeCard_degrades {σ : Type} (o : CardOps σ) (st : AdapterSt) (s : σ)
    (hp : st.pn532 = true) :
    (∀ m s1, o.detectCard s = (.error (.cardManager CmError.NoCardPresent m), s1) →
      (probeCardJs o st s).1 = .ok ⟨none, false⟩) ∧
    (∀ e s1, o.detectCard s = (.error e, s1) → (errFromEtl e).code ≠ "NO_CARD" →
      (probeCardJs o st s).1 = .error (errFromEtl e)) ∧
    (∀ info s1, o.detectCard s = (.ok info, s1) →
      ∃ b, (probeCardJs o st s).1 = .ok ⟨uidOpt info.uid, b⟩) ∧
    (∀ info s1, o.detectCard s = (.ok info, s1) → info.type ≠ CardType.MifareDesfire →
      (probeCardJs o st s).1 = .ok ⟨uidOpt info.uid, false⟩) ∧
    (∀ info s1 e s2, o.detectCard s = (.ok info, s1) →
      info.type = CardType.MifareDesfire → o.createSession s1 = (.error e, s2) →
      (probeCardJs o st s).1 = .ok ⟨uidOpt info.uid, false⟩) ∧
    (∀ info s1 s2, o.detectCard s = (.ok info, s1) →
      info.type = CardType.MifareDesfire → o.createSession s1 = (.ok (), s2) →
      o.castDesfire s2 = false →
      (probeCardJs o st s).1 = .ok ⟨uidOpt info.uid, false⟩) ∧
    (∀ info s1 s2 e s3, o.detectCard s = (.ok info, s1) →
      info.type = CardType.MifareDesfire → o.createSession s1 = (.ok (), s2) →
      o.castDesfire s2 = true → o.selectApplication piccAid s2 = (.error e, s3) →
      (probeCardJs o st s).1 = .ok ⟨uidOpt info.uid, false⟩) ∧
    (∀ info s1 s2 s3 e s4, o.detectCard s = (.ok info, s1) →
      info.type = CardType.MifareDesfire → o.createSession s1 = (.ok (), s2) →
      o.castDesfire s2 = true → o.selectApplication piccAid s2 = (.ok (), s3) →
      o.getApplicationIds s3 = (.error e, s4) →
      (probeCardJs o st s).1 = .ok ⟨uidOpt info.uid, false⟩) := by
  refine ⟨?_, ?_, ?_, ?_, ?_, ?_, ?_, ?_⟩
  · intro m s1 hd
    simp [probeCardJs, Pn532Adapter.probeCard, probeOnOK, errFromEtl, hp, hd]
  · intro e s1 hd hne
    simp [probeCardJs, Pn532Adapter.probeCard, probeOnOK, hp, hd, hne]
  · intro info s1 hd
    by_cases hti : info.type = CardType.MifareDesfire
    · rcases hcs : o.createSession s1 with ⟨e2 | u2, s2⟩
      · exact ⟨false, by
          simp [probeCardJs, Pn532Adapter.probeCard, probeOnOK, uidOpt, hp, hd, hti, hcs]⟩
      · rcases hcd : o.castDesfire s2 with _ | _
        · exact ⟨false, by
            simp [probeCardJs, Pn532Adapter.probeCard, probeOnOK, uidOpt, hp, hd, hti, hcs,
                  hcd]⟩
        · rcases hsel : o.selectApplication piccAid s2 with ⟨e3 | u3, s3⟩
          · exact ⟨false, by
              simp [probeCardJs, Pn532Adapter.probeCard, probeOnOK, uidOpt, hp, hd, hti,
                    hcs, hcd, hsel]⟩
          · rcases hga : o.getApplicationIds s3 with ⟨e4 | a4, s4⟩
            · exact ⟨false, by
                simp [probeCardJs, Pn532Adapter.probeCard, probeOnOK, uidOpt, hp, hd, hti,
                      hcs, hcd, hsel, hga]⟩
            · exact ⟨a4.contains vaultAid, by
                simp [probeCardJs, Pn532Adapter.probeCard, probeOnOK, uidOpt, hp, hd, hti,
                      hcs, hcd, hsel, hga]⟩
    · exact ⟨false, by
        simp [probeCardJs, Pn532Adapter.probeCard, probeOnOK, uidOpt, hp, hd, hti]⟩
  · intro info s1 hd hti
    simp [probeCardJs, Pn532Adapter.probeCard, probeOnOK, uidOpt, hp, hd, hti]
  · intro info s1 e s2 hd hti hcs
    simp [probeCardJs, Pn532Adapter.probeCard, probeOnOK, uidOpt, hp, hd, hti, hcs]
  · intro info s1 s2 hd hti hcs hcd
    simp [probeCardJs, Pn532Adapter.probeCard, probeOnOK, uidOpt, hp, hd, hti, hcs, hcd]
  · intro info s1 s2 e s3 hd hti hcs hcd hsel
    simp [probeCardJs, Pn532Adapter.probeCard, probeOnOK, uidOpt, hp, hd, hti, hcs, hcd,
          hsel]
  · intro info s1 s2 s3 e s4 hd hti hcs hcd hsel hga
    simp [probeCardJs, Pn532Adapter.probeCard, probeOnOK, uidOpt, hp, hd, hti, hcs, hcd,
          hsel, hga]

/-- Witness for C4: no card present resolves to null uid and false. -/
theorem probeCard_degrades_witness :
    (probeCardJs
      { pureOps with
        detectCard := fun s => (.error (.cardManager CmError.NoCardPresent "none"), s) }
      stConn ()).1 = .ok ⟨none, false⟩ :=
  (probeCard_degrades
    { pureOps with
      detectCard := fun s => (.error (.cardManager CmError.NoCardPresent "none"), s) }
    stConn () rfl).1 "none" () rfl

set_option maxHeartbeats 1000000

/-- Claim C7: every card-vault operation that creates a card session closes it
on every return path — success, wrong card type, failed handle cast, or any
sub-step failure after session creation — so no session stays open: in every
trace, a successful sessionCreate is followed by a clearSession. -/
theorem sessions_closed_on_all_paths {σ : Type} (o : CardOps σ) (st : AdapterSt) (s : σ) :
    sessionSafe (Pn532Adapter.getCardVersion o st s).2.2 ∧
    sessionSafe (Pn532Adapter.isCardInitialised o st s).2.2 ∧
    sessionSafe (Pn532Adapter.probeCard o st s).2.2 ∧
    (∀ opts, sessionSafe (Pn532Adapter.initCard o st opts s).2.2) ∧
    (∀ key, sessionSafe (Pn532Adapter.readCardSecret o st key s).2.2) ∧
    sessionSafe (Pn532Adapter.cardFreeMemory o st s).2.2 ∧
    sessionSafe (Pn532Adapter.formatCard o st s).2.2 ∧
    sessionSafe (Pn532Adapter.getCardApplicationIds o st s).2.2 := by
  refine ⟨?_, ?_, ?_, ?_, ?_, ?_, ?_, ?_⟩
  · unfold Pn532Adapter.getCardVersion
    repeat' split
    all_goals simp [sessionSafe]
  · unfold Pn532Adapter.isCardInitialised
    repeat' split
    all_goals simp [sessionSafe]
  · unfold Pn532Adapter.probeCard
    repeat' split
    all_goals simp [sessionSafe]
  · intro opts
    unfold Pn532Adapter.initCard Pn532Adapter.initCardSteps
    repeat' split
    all_goals simp [sessionSafe, Pn532Adapter.initEv, List.take]
  · intro key
    unfold Pn532Adapter.readCardSecret
    repeat' split
    all_goals simp [sessionSafe]
  · unfold Pn532Adapter.cardFreeMemory
    repeat' split
    all_goals simp [sessionSafe]
  · unfold Pn532Adapter.formatCard
    repeat' split
    all_goals simp [sessionSafe]
  · unfold Pn532Adapter.getCardApplicationIds
    repeat' split
    all_goals simp [sessionSafe]

/-- Claim C6: initCard executes its provisioning card steps in exactly the
specified order (select root; authenticate all-zero default key; disable random
UID; create the application with two AES keys; select it; authenticate key 0
with the all-zero AES key; create the 32-byte backup file with read access on
key 1; change key 1 to the read key; change key 0 to the master key;
re-authenticate with the new master key; write the payload; commit), and if any
step fails no later step runs, the session is closed, and the errFromEtl-mapped
error is returned — with no rollback of the earlier steps (the trace contains
exactly the attempted steps and the final clearSession). -/
theorem initCard_step_order {σ : Type} (o : CardOps σ) (st : AdapterSt)
    (opts : CardInitOptions) (s s1 s2 : σ) (info : CardInfo)
    (hp : st.pn532 = true)
    (hd : o.detectCard s = (.ok info, s1))
    (ht : info.type = CardType.MifareDesfire)
    (hs : o.createSession s1 = (.ok (), s2))
    (hc : o.castDesfire s2 = true) :
    (∀ e t,
      o.selectApplication piccAid s2 = (.error e, t) →
      Pn532Adapter.initCard o st opts s
        = (.error (errFromEtl e), o.clearSession t,
           initPreamble ++ (Pn532Adapter.initEv opts).take 1 ++ [Ev.clearSession])) ∧
    (∀ t1 e t,
      o.selectApplication piccAid s2 = (.ok (), t1) →
      o.authenticate 0 zeros16 DesfireAuthMode.ISO t1 = (.error e, t) →
      Pn532Adapter.initCard o st opts s
        = (.error (errFromEtl e), o.clearSession t,
           initPreamble ++ (Pn532Adapter.initEv opts).take 2 ++ [Ev.clearSession])) ∧
    (∀ t1 t2 e t,
      o.selectApplication piccAid s2 = (.ok (), t1) →
      o.authenticate 0 zeros16 DesfireAuthMode.ISO t1 = (.ok (), t2) →
      o.setConfigurationPicc 0 DesfireAuthMode.ISO t2 = (.error e, t) →
      Pn532Adapter.initCard o st opts s
        = (.error (errFromEtl e), o.clearSession t,
           initPreamble ++ (Pn532Adapter.initEv opts).take 3 ++ [Ev.clearSession])) ∧
    (∀ t1 t2 t3 e t,
      o.selectApplication piccAid s2 = (.ok (), t1) →
      o.authenticate 0 zeros16 DesfireAuthMode.ISO t1 = (.ok (), t2) →
      o.setConfigurationPicc 0 DesfireAuthMode.ISO t2 = (.ok (), t3) →
      o.createApplication opts.aid 15 2 DesfireKeyType.AES t3 = (.error e, t) →
      Pn532Adapter.initCard o st opts s
        = (.error (errFromEtl e), o.clearSession t,
           initPreamble ++ (Pn532Adapter.initEv opts).take 4 ++ [Ev.clearSession])) ∧
    (∀ t1 t2 t3 t4 e t,
      o.selectApplication piccAid s2 = (.ok (), t1) →
      o.authenticate 0 zeros16 DesfireAuthMode.ISO t1 = (.ok (), t2) →
      o.setConfigurationPicc 0 DesfireAuthMode.ISO t2 = (.ok (), t3) →
      o.createApplication opts.aid 15 2 DesfireKeyType.AES t3 = (.ok (), t4) →
      o.selectApplication opts.aid t4 = (.error e, t) →
      Pn532Adapter.initCard o st opts s
        = (.error (errFromEtl e), o.clearSession t,
           initPreamble ++ (Pn532Adapter.initEv opts).take 5 ++ [Ev.clearSession])) ∧
    (∀ t1 t2 t3 t4 t5 e t,
      o.selectApplication piccAid s2 = (.ok (), t1) →
      o.authenticate 0 zeros16 DesfireAuthMode.ISO t1 = (.ok (), t2) →
      o.setConfigurationPicc 0 DesfireAuthMode.ISO t2 = (.ok (), t3) →
      o.createApplication opts.aid 15 2 DesfireKeyType.AES t3 = (.ok (), t4) →
      o.selectApplication opts.aid t4 = (.ok (), t5) →
      o.authenticate 0 zeros16 DesfireAuthMode.AES t5 = (.error e, t) →
      Pn532Adapter.initCard o st opts s
        = (.error (errFromEtl e), o.clearSession t,
           initPreamble ++ (Pn532Adapter.initEv opts).take 6 ++ [Ev.clearSession])) ∧
    (∀ t1 t2 t3 t4 t5 t6 e t,
      o.selectApplication piccAid s2 = (.ok (), t1) →
      o.authenticate 0 zeros16 DesfireAuthMode.ISO t1 = (.ok (), t2) →
      o.setConfigurationPicc 0 DesfireAuthMode.ISO t2 = (.ok (), t3) →
      o.createApplication opts.aid 15 2 DesfireKeyType.AES t3 = (.ok (), t4) →
      o.selectApplication opts.aid t4 = (.ok (), t5) →
      o.authenticate 0 zeros16 DesfireAuthMode.AES t5 = (.ok (), t6) →
      o.createBackupDataFile 0 3 1 0 0 0 32 t6 = (.error e, t) →
      Pn532Adapter.initCard o st opts s
        = (.error (errFromEtl e), o.clearSession t,
           initPreamble ++ (Pn532Adapter.initEv opts).take 7 ++ [Ev.clearSession])) ∧
    (∀ t1 t2 t3 t4 t5 t6 t7 e t,
      o.selectApplication piccAid s2 = (.ok (), t1) →
      o.authenticate 0 zeros16 DesfireAuthMode.ISO t1 = (.ok (), t2) →
      o.setConfigurationPicc 0 DesfireAuthMode.ISO t2 = (.ok (), t3) →
      o.createApplication opts.aid 15 2 DesfireKeyType.AES t3 = (.ok (), t4) →
      o.selectApplication opts.aid t4 = (.ok (), t5) →
      o.authenticate 0 zeros16 DesfireAuthMode.AES t5 = (.ok (), t6) →
      o.createBackupDataFile 0 3 1 0 0 0 32 t6 = (.ok (), t7) →
      o.changeKeyCmd (Pn532Adapter.ck1Opts opts.readKey) t7 = (.error e, t) →
      Pn532Adapter.initCard o st opts s
        = (.error (errFromEtl e), o.clearSession t,
           initPreamble ++ (Pn532Adapter.initEv opts).take 8 ++ [Ev.clearSession])) ∧
    (∀ t1 t2 t3 t4 t5 t6 t7 t8 e t,
      o.selectApplication piccAid s2 = (.ok (), t1) →
      o.authenticate 0 zeros16 DesfireAuthMode.ISO t1 = (.ok (), t2) →
      o.setConfigurationPicc 0 DesfireAuthMode.ISO t2 = (.ok (), t3) →
      o.createApplication opts.aid 15 2 DesfireKeyType.AES t3 = (.ok (), t4) →
      o.selectApplication opts.aid t4 = (.ok (), t5) →
      o.authenticate 0 zeros16 DesfireAuthMode.AES t5 = (.ok (), t6) →
      o.createBackupDataFile 0 3 1 0 0 0 32 t6 = (.ok (), t7) →
      o.changeKeyCmd (Pn532Adapter.ck1Opts opts.readKey) t7 = (.ok (), t8) →
      o.changeKeyCmd (Pn532Adapter.ck0Opts opts.appMasterKey) t8 = (.error e, t) →
      Pn532Adapter.initCard o st opts s
        = (.error (errFromEtl e), o.clearSession t,
           initPreamble ++ (Pn532Adapter.initEv opts).take 9 ++ [Ev.clearSession])) ∧
    (∀ t1 t2 t3 t4 t5 t6 t7 t8 t9 e t,
      o.selectApplication piccAid s2 = (.ok (), t1) →
      o.authenticate 0 zeros16 DesfireAuthMode.ISO t1 = (.ok (), t2) →
      o.setConfigurationPicc 0 DesfireAuthMode.ISO t2 = (.ok (), t3) →
      o.createApplication opts.aid 15 2 DesfireKeyType.AES t3 = (.ok (), t4) →
      o.selectApplication opts.aid t4 = (.ok (), t5) →
      o.authenticate 0 zeros16 DesfireAuthMode.AES t5 = (.ok (), t6) →
      o.createBackupDataFile 0 3 1 0 0 0 32 t6 = (.ok (), t7) →
      o.changeKeyCmd (Pn532Adapter.ck1Opts opts.readKey) t7 = (.ok (), t8) →
      o.changeKeyCmd (Pn532Adapter.ck0Opts opts.appMasterKey) t8 = (.ok (), t9) →
      o.authenticate 0 opts.appMasterKey DesfireAuthMode.AES t9 = (.error e, t) →
      Pn532Adapter.initCard o st opts s
        = (.error (errFromEtl e), o.clearSession t,
           initPreamble ++ (Pn532Adapter.initEv opts).take 10 ++ [Ev.clearSession])) ∧
    (∀ t1 t2 t3 t4 t5 t6 t7 t8 t9 t10 e t,
      o.selectApplication piccAid s2 = (.ok (), t1) →
      o.authenticate 0 zeros16 DesfireAuthMode.ISO t1 = (.ok (), t2) →
      o.setConfigurationPicc 0 DesfireAuthMode.ISO t2 = (.ok (), t3) →
      o.createApplication opts.aid 15 2 DesfireKeyType.AES t3 = (.ok (), t4) →
      o.selectApplication opts.aid t4 = (.ok (), t5) →
      o.authenticate 0 zeros16 DesfireAuthMode.AES t5 = (.ok (), t6) →
      o.createBackupDataFile 0 3 1 0 0 0 32 t6 = (.ok (), t7) →
      o.changeKeyCmd (Pn532Adapter.ck1Opts opts.readKey) t7 = (.ok (), t8) →
      o.changeKeyCmd (Pn532Adapter.ck0Opts opts.appMasterKey) t8 = (.ok (), t9) →
      o.authenticate 0 opts.appMasterKey DesfireAuthMode.AES t9 = (.ok (), t10) →
      o.writeData 0 0 (Pn532Adapter.initPayload opts) t10 = (.error e, t) →
      Pn532Adapter.initCard o st opts s
        = (.error (errFromEtl e), o.clearSession t,
           initPreamble ++ (Pn532Adapter.initEv opts).take 11 ++ [Ev.clearSession])) ∧
    (∀ t1 t2 t3 t4 t5 t6 t7 t8 t9 t10 t11 e t,
      o.selectApplication piccAid s2 = (.ok (), t1) →
      o.authenticate 0 zeros16 DesfireAuthMode.ISO t1 = (.ok (), t2) →
      o.setConfigurationPicc 0 DesfireAuthMode.ISO t2 = (.ok (), t3) →
      o.createApplication opts.aid 15 2 DesfireKeyType.AES t3 = (.ok (), t4) →
      o.selectApplication opts.aid t4 = (.ok (), t5) →
      o.authenticate 0 zeros16 DesfireAuthMode.AES t5 = (.ok (), t6) →
      o.createBackupDataFile 0 3 1 0 0 0 32 t6 = (.ok (), t7) →
      o.changeKeyCmd (Pn532Adapter.ck1Opts opts.readKey) t7 = (.ok (), t8) →
      o.changeKeyCmd (Pn532Adapter.ck0Opts opts.appMasterKey) t8 = (.ok (), t9) →
      o.authenticate 0 opts.appMasterKey DesfireAuthMode.AES t9 = (.ok (), t10) →
      o.writeData 0 0 (Pn532Adapter.initPayload opts) t10 = (.ok (), t11) →
      o.commitTransaction t11 = (.error e, t) →
      Pn532Adapter.initCard o st opts s
        = (.error (errFromEtl e), o.clearSession t,
           initPreamble ++ (Pn532Adapter.initEv opts).take 12 ++ [Ev.clearSession])) ∧
    (∀ t1 t2 t3 t4 t5 t6 t7 t8 t9 t10 t11 t12,
      o.selectApplication piccAid s2 = (.ok (), t1) →
      o.authenticate 0 zeros16 DesfireAuthMode.ISO t1 = (.ok (), t2) →
      o.setConfigurationPicc 0 DesfireAuthMode.ISO t2 = (.ok (), t3) →
      o.createApplication opts.aid 15 2 DesfireKeyType.AES t3 = (.ok (), t4) →
      o.selectApplication opts.aid t4 = (.ok (), t5) →
      o.authenticate 0 zeros16 DesfireAuthMode.AES t5 = (.ok (), t6) →
      o.createBackupDataFile 0 3 1 0 0 0 32 t6 = (.ok (), t7) →
      o.changeKeyCmd (Pn532Adapter.ck1Opts opts.readKey) t7 = (.ok (), t8) →
      o.changeKeyCmd (Pn532Adapter.ck0Opts opts.appMasterKey) t8 = (.ok (), t9) →
      o.authenticate 0 opts.appMasterKey DesfireAuthMode.AES t9 = (.ok (), t10) →
      o.writeData 0 0 (Pn532Adapter.initPayload opts) t10 = (.ok (), t11) →
      o.commitTransaction t11 = (.ok (), t12) →
      Pn532Adapter.initCard o st opts s
        = (.ok true, o.clearSession t12,
           initPreamble ++ Pn532Adapter.initEv opts ++ [Ev.clearSession])) := by
  refine ⟨?_, ?_, ?_, ?_, ?_, ?_, ?_, ?_, ?_, ?_, ?_, ?_, ?_⟩
  · intro e t h1
    simp [Pn532Adapter.initCard, Pn532Adapter.initCardSteps, initPreamble,
          hp, hd, ht, hs, hc, h1]
  · intro t1 e t h1 h2
    simp [Pn532Adapter.initCard, Pn532Adapter.initCardSteps, initPreamble,
          hp, hd, ht, hs, hc, h1, h2]
  · intro t1 t2 e t h1 h2 h3
    simp [Pn532Adapter.initCard, Pn532Adapter.initCardSteps, initPreamble,
          hp, hd, ht, hs, hc, h1, h2, h3]
  · intro t1 t2 t3 e t h1 h2 h3 h4
    simp [Pn532Adapter.initCard, Pn532Adapter.initCardSteps, initPreamble,
          hp, hd, ht, hs, hc, h1, h2, h3, h4]
  · intro t1 t2 t3 t4 e t h1 h2 h3 h4 h5
    simp [Pn532Adapter.initCard, Pn532Adapter.initCardSteps, initPreamble,
          hp, hd, ht, hs, hc, h1, h2, h3, h4, h5]
  · intro t1 t2 t3 t4 t5 e t h1 h2 h3 h4 h5 h6
    simp [Pn532Adapter.initCard, Pn532Adapter.initCardSteps, initPreamble,
          hp, hd, ht, hs, hc, h1, h2, h3, h4, h5, h6]
  · intro t1 t2 t3 t4 t5 t6 e t h1 h2 h3 h4 h5 h6 h7
    simp [Pn532Adapter.initCard, Pn532Adapter.initCardSteps, initPreamble,
          hp, hd, ht, hs, hc, h1, h2, h3, h4, h5, h6, h7]
  · intro t1 t2 t3 t4 t5 t6 t7 e t h1 h2 h3 h4 h5 h6 h7 h8
    simp [Pn532Adapter.initCard, Pn532Adapter.initCardSteps, initPreamble,
          hp, hd, ht, hs, hc, h1, h2, h3, h4, h5, h6, h7, h8]
  · intro t1 t2 t3 t4 t5 t6 t7 t8 e t h1 h2 h3 h4 h5 h6 h7 h8 h9
    simp [Pn532Adapter.initCard, Pn532Adapter.initCardSteps, initPreamble,
          hp, hd, ht, hs, hc, h1, h2, h3, h4, h5, h6, h7, h8, h9]
  · intro t1 t2 t3 t4 t5 t6 t7 t8 t9 e t h1 h2 h3 h4 h5 h6 h7 h8 h9 h10
    simp [Pn532Adapter.initCard, Pn532Adapter.initCardSteps, initPreamble,
          hp, hd, ht, hs, hc, h1, h2, h3, h4, h5, h6, h7, h8, h9, h10]
  · intro t1 t2 t3 t4 t5 t6 t7 t8 t9 t10 e t h1 h2 h3 h4 h5 h6 h7 h8 h9 h10 h11
    simp [Pn532Adapter.initCard, Pn532Adapter.initCardSteps, initPreamble,
          hp, hd, ht, hs, hc, h1, h2, h3, h4, h5, h6, h7, h8, h9, h10, h11]
  · intro t1 t2 t3 t4 t5 t6 t7 t8 t9 t10 t11 e t h1 h2 h3 h4 h5 h6 h7 h8 h9 h10 h11 h12
    simp [Pn532Adapter.initCard, Pn532Adapter.initCardSteps, initPreamble,
          Pn532Adapter.initEv,
          hp, hd, ht, hs, hc, h1, h2, h3, h4, h5, h6, h7, h8, h9, h10, h11, h12]
  · intro t1 t2 t3 t4 t5 t6 t7 t8 t9 t10 t11 t12 h1 h2 h3 h4 h5 h6 h7 h8 h9 h10 h11 h12
    simp [Pn532Adapter.initCard, Pn532Adapter.initCardSteps, initPreamble,
          hp, hd, ht, hs, hc, h1, h2, h3, h4, h5, h6, h7, h8, h9, h10, h11, h12]

/-- Witness for C6: a concrete oracle failing at step 3 (disable random UID)
aborts with the mapped IO_TIMEOUT after exactly three card steps. -/
theorem initCard_step_order_witness :
    Pn532Adapter.initCard
      { pureOps with setConfigurationPicc := fun _ _ s =>
          (.error (.hardware HwError.Timeout "Timeout"), s) }
      stConn opts0 ()
      = (.error (errFromEtl (.hardware HwError.Timeout "Timeout")), (),
         initPreamble ++ (Pn532Adapter.initEv opts0).take 3 ++ [Ev.clearSession]) :=
  (initCard_step_order
    { pureOps with setConfigurationPicc := fun _ _ s =>
        (.error (.hardware HwError.Timeout "Timeout"), s) }
    stConn opts0 () () () ⟨CardType.MifareDesfire, pureUid⟩ rfl rfl rfl rfl rfl).2.2.1
    () () (.hardware HwError.Timeout "Timeout") () rfl rfl rfl

/-- Claim C1 (amended): for options whose aid is the vault AID {0x50,0x57,0x00}
— the application that readCardSecret hard-codes — on a factory-state card a
successful initCard(opts) followed by readCardSecret(opts.readKey) returns
exactly the 16 bytes opts.cardSecret: initCard writes a 32-byte payload whose
first 16 bytes are opts.cardSecret followed by 16 zero bytes, and
readCardSecret reads 16 bytes from file 0 at offset 0 of the vault
application.  (Card behaviour modelled from the spec.) -/
theorem initCard_readCardSecret_roundtrip (opts : CardInitOptions) (uid : List Nat)
    (haid : opts.aid = vaultAid) (hsec : opts.cardSecret.length = 16) :
    (Pn532Adapter.initCard simOps stConn opts (factoryCard uid)).1 = .ok true ∧
    Ev.writeData 0 0 (opts.cardSecret ++ List.replicate 16 0)
      ∈ (Pn532Adapter.initCard simOps stConn opts (factoryCard uid)).2.2 ∧
    (Pn532Adapter.initPayload opts).length = 32 ∧
    (Pn532Adapter.initPayload opts).take 16 = opts.cardSecret ∧
    Ev.readData 0 0 16
      ∈ (Pn532Adapter.readCardSecret simOps stConn opts.readKey
          (Pn532Adapter.initCard simOps stConn opts (factoryCard uid)).2.1).2.2 ∧
    (Pn532Adapter.readCardSecret simOps stConn opts.readKey
        (Pn532Adapter.initCard simOps stConn opts (factoryCard uid)).2.1).1
      = .ok opts.cardSecret := by
  obtain ⟨aid, amk, rk, cs⟩ := opts
  simp only [CardInitOptions.mk.injEq] at haid ⊢
  simp only at hsec
  subst haid
  refine ⟨?_, ?_, ?_, ?_, ?_, ?_⟩ <;>
    simp [Pn532Adapter.initCard, Pn532Adapter.initCardSteps, Pn532Adapter.readCardSecret,
          Pn532Adapter.initEv, Pn532Adapter.initPayload, simOps, factoryCard, piccAid,
          vaultAid, zeros16, Pn532Adapter.ck1Opts, Pn532Adapter.ck0Opts, assocSet,
          assocGet, factoryKeys, stConn, List.range_succ, List.foldl, hsec]

/-- Witness for the amended C1 with all-concrete key material. -/
theorem initCard_readCardSecret_roundtrip_witness :
    (Pn532Adapter.initCard simOps stConn opts0 (factoryCard pureUid)).1 = .ok true ∧
    (Pn532Adapter.readCardSecret simOps stConn opts0.readKey
        (Pn532Adapter.initCard simOps stConn opts0 (factoryCard pureUid)).2.1).1
      = .ok opts0.cardSecret := by
  have h := initCard_readCardSecret_roundtrip opts0 pureUid rfl (by decide)
  exact ⟨h.1, h.2.2.2.2.2⟩

/-- Counterexample for C1 as frozen: with opts.aid = {0x01,0x02,0x03} (not the
vault AID), initCard succeeds on a factory card, but readCardSecret then fails
— it selects the hard-coded vault AID {0x50,0x57,0x00}, which does not exist on
the card — instead of returning the card secret. -/
theorem readCardSecret_misses_nonvault_aid :
    (Pn532Adapter.initCard simOps stConn ⟨[1, 2, 3], zeros16, zeros16, List.replicate 16 9⟩
        (factoryCard pureUid)).1 = .ok true ∧
    (Pn532Adapter.readCardSecret simOps stConn zeros16
        (Pn532Adapter.initCard simOps stConn ⟨[1, 2, 3], zeros16, zeros16, List.replicate 16 9⟩
            (factoryCard pureUid)).2.1).1
      = .error (errFromEtl (.other "application not found")) ∧
    Ev.selectApp [80, 87, 0]
      ∈ (Pn532Adapter.readCardSecret simOps stConn zeros16
          (Pn532Adapter.initCard simOps stConn ⟨[1, 2, 3], zeros16, zeros16, List.replicate 16 9⟩
              (factoryCard pureUid)).2.1).2.2 ∧
    (Except.error (errFromEtl (.other "application not found"))
        : NfcResult (List Nat)) ≠ .ok (List.replicate 16 9) := by
  refine ⟨?_, ?_, ?_, ?_⟩ <;>
    simp [Pn532Adapter.initCard, Pn532Adapter.initCardSteps, Pn532Adapter.readCardSecret,
          simOps, factoryCard, piccAid, vaultAid, zeros16, Pn532Adapter.ck1Opts,
          Pn532Adapter.ck0Opts, Pn532Adapter.initPayload, assocSet, assocGet, factoryKeys,
          stConn, List.range_succ, List.foldl]
